import Mathlib

/-!
Shallow embedding of the `fenviee` environment-configuration library
(source file `src/env/index.ts`): the `Env` registry class, its
constructor (`this.keys` computation plus `init()` required-key
validation), the `get` accessor, the `CreateEnv` loader facade and the
deprecated `EnvUtility` wrapper.

Modelling choices, each tied to a line of the source:
* The live process environment and the `default_env` record are
  association lists `List (String × String)`; a JS object has unique
  keys and property access returns the value or `undefined`, which
  `List.lookup` renders as `Option String`.
* `ignoreErrors : boolean | 0` is the three-valued error policy: the
  literal `false` (raise), `true` (warn and continue), `0` (silent).
* `get` can evaluate to a string, to the literal `false`, or to
  `undefined` (when `defaultIncludes` is true and the defaults record
  has no entry); `GetResult` has one constructor for each.
* The `try`/`catch` in `get` is modelled by `Env.getRun`, which takes
  an optional injected failure: plain property reads on ordinary
  objects do not throw, so the parameter makes the `catch` handler's
  dispatch on `ignoreErrors` explicit without asserting that a throw
  can actually occur.
-/

/-- The `ignoreErrors : boolean | 0` constructor argument: `false`
raises errors, `true` warns and continues, `0` is fully silent. -/
inductive IgnoreErrors where
  | bFalse
  | bTrue
  | zero
deriving DecidableEq, Repr

/-- A value the `get` accessor can evaluate to: a string from the live
environment or the defaults record, the literal `false`, or
`undefined` (JS `default_env[key]` on a missing key). -/
inductive GetResult where
  | str (s : String)
  | boolFalse
  | undef
deriving DecidableEq, Repr

/-- A JS record / the live process environment, as an association list
with unique keys; `List.lookup` is property access. -/
abbrev EnvMap := List (String × String)

/-- `Object.keys(env)`: the keys of the record, in insertion order. -/
def keysOf (env : EnvMap) : List String := env.map Prod.fst

/-- Helper for `jsSetUnion`: walks the list keeping the first
occurrence of each element, tracking the elements already seen, which
is how `new Set(...)` iterated by `Array.from` behaves. -/
def jsSetGo : List String → List String → List String
  | [], _ => []
  | x :: xs, seen =>
    if x ∈ seen then jsSetGo xs seen else x :: jsSetGo xs (x :: seen)

/-- `Array.from(new Set(l))`: duplicates collapse, first occurrence
kept, order otherwise preserved. -/
def jsSetUnion (l : List String) : List String := jsSetGo l []

/-- The runtime state of a constructed `Env` instance: the computed
`this.keys`, and the `required_keys`, `default_env`, `ignoreErrors`
constructor arguments stored on the instance.  (`this.env` is the
process-wide live environment, read at lookup time, so it is passed to
`get` explicitly rather than stored.) -/
structure Env where
  keys : List String
  required_keys : List String
  default_env : EnvMap
  ignoreErrors : IgnoreErrors
deriving DecidableEq, Repr

/-- The message built in `init()`:
`keys in your .env are not defined. Define next keys:\n` followed by
the comma-joined list. -/
def initErrMsg (missing : List String) : String :=
  "keys in your .env are not defined. Define next keys:\n" ++
    String.intercalate ", " missing

/-- Outcome of `init()`: the thrown error message if any, and the
`console.warn` messages emitted, in order. -/
structure InitResult where
  thrown : Option String
  warnings : List String
deriving DecidableEq, Repr

/-- The `for (const key of this.required_keys)` loop of `init()`,
translated clause by clause.  Note the source declares its accumulator
`const keys = []` inside the loop body, so `missing` here holds at
most the single key of the current iteration; a throw aborts the loop
(and the constructor), a warning lets it continue. -/
def initLoop (ks : List String) (pol : IgnoreErrors) : List String → InitResult
  | [] => InitResult.mk none []
  | key :: rest =>
    let missing : List String := if key ∈ ks then [] else [key]
    if missing.length ≠ 0 then
      match pol with
      | IgnoreErrors.bFalse => InitResult.mk (some (initErrMsg missing)) []
      | IgnoreErrors.bTrue =>
        InitResult.mk (initLoop ks pol rest).thrown
          (initErrMsg missing :: (initLoop ks pol rest).warnings)
      | IgnoreErrors.zero => initLoop ks pol rest
    else initLoop ks pol rest

/-- The `Env` constructor: computes
`this.keys = Array.from(new Set([...Object.keys(process.env), ...keys]))`
and runs `init()`.  Returns the thrown message (construction fails, no
object) or the constructed instance together with the warnings init
emitted. -/
def Env.construct (liveEnv : EnvMap) (keys required_keys : List String)
    (default_env : EnvMap) (ignoreErrors : IgnoreErrors) :
    Except String (Env × List String) :=
  let ks := jsSetUnion (keysOf liveEnv ++ keys)
  let r := initLoop ks ignoreErrors required_keys
  match r.thrown with
  | some msg => Except.error msg
  | none => Except.ok (Env.mk ks required_keys default_env ignoreErrors, r.warnings)

/-- The fallback operand of `get`:
`defaultIncludes == true ? this.default_env[key] : false`.  A missing
defaults entry is JS `undefined`. -/
def Env.getFallback (inst : Env) (key : String) (defaultIncludes : Bool) : GetResult :=
  if defaultIncludes then
    match inst.default_env.lookup key with
    | some d => GetResult.str d
    | none => GetResult.undef
  else GetResult.boolFalse

/-- The body of `get` (the `try` block):
`this.env[key] || (defaultIncludes == true ? this.default_env[key] : false)`.
A string is truthy iff non-empty, so a present non-empty live value is
returned and anything else falls through to the fallback operand. -/
def Env.get (inst : Env) (liveEnv : EnvMap) (key : String)
    (defaultIncludes : Bool) : GetResult :=
  match liveEnv.lookup key with
  | some v => if v ≠ "" then GetResult.str v else Env.getFallback inst key defaultIncludes
  | none => Env.getFallback inst key defaultIncludes

/-- The runtime default of `get`'s second parameter:
`defaultIncludes: DefaultIncludes = false as DefaultIncludes`.  The
type-level default is the `GlobalDefaultIncludes` type parameter, but
type parameters are erased at runtime and the value default is the
literal `false`. -/
def Env.getDefaultArg : Bool := false

/-- A call `get(key)` with the second argument omitted: the runtime
default `false` is used. -/
def Env.getOmitted (inst : Env) (liveEnv : EnvMap) (key : String) : GetResult :=
  Env.get inst liveEnv key Env.getDefaultArg

/-- Observable outcome of a full `get` call: the returned value or the
propagated error, plus any `console.warn` output. -/
structure GetOutcome where
  result : Except String GetResult
  warnings : List String
deriving Repr

/-- The `try`/`catch` wrapper of `get`.  `failure` injects an
exception raised inside the `try` block (none occurs on ordinary
objects); the `catch` handler rethrows under `ignoreErrors === false`,
warns and returns `false` under `=== true`, and returns `false`
silently under `0`. -/
def Env.getRun (inst : Env) (liveEnv : EnvMap) (key : String)
    (defaultIncludes : Bool) (failure : Option String) : GetOutcome :=
  match failure with
  | none => GetOutcome.mk (Except.ok (Env.get inst liveEnv key defaultIncludes)) []
  | some err =>
    match inst.ignoreErrors with
    | IgnoreErrors.bFalse => GetOutcome.mk (Except.error err) []
    | IgnoreErrors.bTrue => GetOutcome.mk (Except.ok GetResult.boolFalse) [err]
    | IgnoreErrors.zero => GetOutcome.mk (Except.ok GetResult.boolFalse) []

/-- A `get` call viewed as a state transition: the method body contains
no assignment to `this.keys`, `this.default_env`, `this.required_keys`
or the live environment, so the post-state is the pre-state. -/
def Env.getStep (inst : Env) (liveEnv : EnvMap) (key : String)
    (defaultIncludes : Bool) (failure : Option String) :
    GetOutcome × Env × EnvMap :=
  (Env.getRun inst liveEnv key defaultIncludes failure, inst, liveEnv)

/-- `CreateEnv`: normalizes the path, invokes the external dotenv
loader (the collaborator `config({path})`, modelled as an abstract
transformation `loadFile` of the live environment by the file at the
given path), then constructs the `Env` over the updated environment
with the remaining arguments passed through unchanged. -/
def CreateEnv (loadFile : String → EnvMap → EnvMap) (pathToEnv : String)
    (liveEnv : EnvMap) (keys requiredKeys : List String)
    (defaultEnv : EnvMap) (ignoreErrors : IgnoreErrors) :
    Except String (Env × List String) :=
  Env.construct (loadFile pathToEnv liveEnv) keys requiredKeys defaultEnv ignoreErrors

/-- The deprecated `EnvUtility` wrapper: its constructor body is the
single statement `this.env = CreateEnv({keys, requiredKeys, pathToEnv,
defaultEnv, ignoreErrors})`, so constructing the wrapper and reading
its `env` field yields exactly the facade's result (a thrown error
propagates out of the constructor unchanged). -/
def EnvUtility.make (loadFile : String → EnvMap → EnvMap) (pathToEnv : String)
    (liveEnv : EnvMap) (keys requiredKeys : List String)
    (defaultEnv : EnvMap) (ignoreErrors : IgnoreErrors) :
    Except String (Env × List String) :=
  CreateEnv loadFile pathToEnv liveEnv keys requiredKeys defaultEnv ignoreErrors

/-- Modelled from the spec's words, for claim C3: the spec's declared
return contract `get(key, includeDefault?) -> string | false` — true
of a result that is a string or the sentinel `false`, false of
`undefined`. -/
def specStringOrFalse : GetResult → Bool
  | GetResult.str _ => true
  | GetResult.boolFalse => true
  | GetResult.undef => false

/-- Membership in the dedup walk: an element appears in the output iff
it appears in the remaining input and was not already seen. -/
theorem mem_jsSetGo (x : String) :
    ∀ (l seen : List String), x ∈ jsSetGo l seen ↔ x ∈ l ∧ x ∉ seen := by
  intro l
  induction l with
  | nil => intro seen; simp [jsSetGo]
  | cons a as ih =>
    intro seen
    by_cases h : a ∈ seen
    · have e : jsSetGo (a :: as) seen = jsSetGo as seen := by
        simp only [jsSetGo, if_pos h]
      rw [e, ih]
      by_cases hxa : x = a
      · subst hxa; simp [h]
      · simp [List.mem_cons, hxa]
    · have e : jsSetGo (a :: as) seen = a :: jsSetGo as (a :: seen) := by
        simp only [jsSetGo, if_neg h]
      rw [e]
      by_cases hxa : x = a
      · subst hxa; simp [h]
      · simp [List.mem_cons, ih, hxa]

/-- `Array.from(new Set(l))` has exactly the members of `l`. -/
theorem mem_jsSetUnion (x : String) (l : List String) :
    x ∈ jsSetUnion l ↔ x ∈ l := by
  rw [jsSetUnion, mem_jsSetGo]; simp

/-- When every required key is in the known key list, the `init()`
loop neither throws nor warns. -/
theorem initLoop_all_present (ks : List String) (pol : IgnoreErrors) :
    ∀ req : List String, (∀ k ∈ req, k ∈ ks) →
      initLoop ks pol req = InitResult.mk none [] := by
  intro req
  induction req with
  | nil => intro _; rfl
  | cons a as ih =>
    intro h
    have ha : a ∈ ks := h a (List.mem_cons_self a as)
    have e : initLoop ks pol (a :: as) = initLoop ks pol as := by
      simp [initLoop, ha]
    rw [e]
    exact ih fun k hk => h k (List.mem_cons_of_mem a hk)

/-- Claim C1, evidence of the code bug: with required keys `A` and `B`
both absent from the live environment and the declared list, the
`init()` loop (whose accumulator is re-created empty on every
iteration) throws under `Raise` a message naming only `A` — not the
comma-joined `A, B` the claim and the message's own `join(", ")`
promise — and under `WarnAndContinue` emits two separate warnings, one
key each, rather than one warning enumerating both; under `Silent`
construction completes with no diagnostic. -/
theorem env_init_reports_missing_keys_one_at_a_time :
    Env.construct [] [] ["A", "B"] [] IgnoreErrors.bFalse =
      Except.error "keys in your .env are not defined. Define next keys:\nA" ∧
    Env.construct [] [] ["A", "B"] [] IgnoreErrors.bTrue =
      Except.ok (Env.mk [] ["A", "B"] [] IgnoreErrors.bTrue,
        ["keys in your .env are not defined. Define next keys:\nA",
         "keys in your .env are not defined. Define next keys:\nB"]) ∧
    Env.construct [] [] ["A", "B"] [] IgnoreErrors.zero =
      Except.ok (Env.mk [] ["A", "B"] [] IgnoreErrors.zero, []) :=
  ⟨rfl, rfl, rfl⟩

/-- Claim C2, evidence of the code bug: the runtime default of the
`defaultIncludes` parameter is the literal `false` (the type-level
`GlobalDefaultIncludes` flag is erased at runtime), so on an instance
whose defaults record maps `COOKIE_AGE` to `604800` and whose live
environment lacks the key, `get("COOKIE_AGE")` with the flag omitted
returns the sentinel `false`, while passing `true` explicitly returns
the default — omission does not follow any instance-level mode. -/
theorem get_omitted_flag_is_runtime_false :
    Env.getOmitted
        (Env.mk ["COOKIE_AGE"] [] [("COOKIE_AGE", "604800")] IgnoreErrors.bFalse)
        [] "COOKIE_AGE" = GetResult.boolFalse ∧
    Env.get (Env.mk ["COOKIE_AGE"] [] [("COOKIE_AGE", "604800")] IgnoreErrors.bFalse)
        [] "COOKIE_AGE" true = GetResult.str "604800" ∧
    Env.getDefaultArg = false :=
  ⟨rfl, rfl, rfl⟩

/-- Claim C3, counterexample: with `includeDefault = true`, a key with
no live value and no entry in the defaults record, `get` evaluates to
JS `undefined` — violating the spec's declared `string | false` return
contract. -/
theorem get_can_return_undefined :
    Env.get (Env.mk ["X"] [] [] IgnoreErrors.bFalse) [] "X" true = GetResult.undef ∧
    specStringOrFalse (Env.get (Env.mk ["X"] [] [] IgnoreErrors.bFalse) [] "X" true) = false :=
  ⟨rfl, rfl⟩

/-- Claim C3, amended: `get` returns a string or the sentinel `false`
in every case except exactly one — `includeDefault` is true, the key
has no truthy live value (absent or empty), and the defaults record
has no entry for it — in which case it returns `undefined`. -/
theorem get_undef_characterization (inst : Env) (liveEnv : EnvMap)
    (key : String) (b : Bool) :
    Env.get inst liveEnv key b = GetResult.undef ↔
      b = true ∧ (liveEnv.lookup key = none ∨ liveEnv.lookup key = some "") ∧
        inst.default_env.lookup key = none := by
  unfold Env.get Env.getFallback
  cases hl : liveEnv.lookup key with
  | none =>
    cases b with
    | false => simp
    | true =>
      cases hd : inst.default_env.lookup key with
      | none => simp
      | some d => simp
  | some v =>
    by_cases hv : v = ""
    · subst hv
      cases b with
      | false => simp
      | true =>
        cases hd : inst.default_env.lookup key with
        | none => simp
        | some d => simp
    · simp [hv]

/-- Claim C4: when every required key is present among the live
environment's keys at construction time or in the declared key list,
construction succeeds under every error policy, producing the registry
with the computed key union and an empty warning list. -/
theorem construct_succeeds_when_required_known
    (liveEnv : EnvMap) (keys required : List String) (defaults : EnvMap)
    (pol : IgnoreErrors)
    (h : ∀ k ∈ required, k ∈ keysOf liveEnv ∨ k ∈ keys) :
    Env.construct liveEnv keys required defaults pol =
      Except.ok
        (Env.mk (jsSetUnion (keysOf liveEnv ++ keys)) required defaults pol, []) := by
  have hks : ∀ k ∈ required, k ∈ jsSetUnion (keysOf liveEnv ++ keys) := by
    intro k hk
    rw [mem_jsSetUnion, List.mem_append]
    exact h k hk
  simp only [Env.construct]
  rw [initLoop_all_present _ _ _ hks]

/-- Witness for C4 at the spec's concrete scenario: declared keys
`PORT`, `CLIENT_URL`, `COOKIE_AGE`, required `CLIENT_URL`, live
environment containing `CLIENT_URL`. -/
theorem construct_succeeds_when_required_known_witness :
    (∀ k ∈ ["CLIENT_URL"],
        k ∈ keysOf [("CLIENT_URL", "https://x.test")] ∨
          k ∈ ["PORT", "CLIENT_URL", "COOKIE_AGE"]) ∧
    Env.construct [("CLIENT_URL", "https://x.test")]
        ["PORT", "CLIENT_URL", "COOKIE_AGE"] ["CLIENT_URL"]
        [("PORT", "3000"), ("COOKIE_AGE", "604800")] IgnoreErrors.bFalse =
      Except.ok
        (Env.mk
          (jsSetUnion
            (keysOf [("CLIENT_URL", "https://x.test")] ++
              ["PORT", "CLIENT_URL", "COOKIE_AGE"]))
          ["CLIENT_URL"] [("PORT", "3000"), ("COOKIE_AGE", "604800")]
          IgnoreErrors.bFalse, []) :=
  ⟨by decide, construct_succeeds_when_required_known _ _ _ _ _ (by decide)⟩

/-- Claim C5: for a key whose live value is absent or empty: if the
key has a registered default, `get(key, true)` returns exactly that
default string; and `get(key, false)` returns the sentinel `false`
unconditionally, whether or not a default is registered. -/
theorem get_default_fallback (inst : Env) (liveEnv : EnvMap) (key d : String)
    (habs : liveEnv.lookup key = none ∨ liveEnv.lookup key = some "") :
    (inst.default_env.lookup key = some d →
      Env.get inst liveEnv key true = GetResult.str d) ∧
    Env.get inst liveEnv key false = GetResult.boolFalse := by
  rcases habs with h | h <;>
    exact ⟨fun hdef => by simp [Env.get, Env.getFallback, h, hdef],
      by simp [Env.get, Env.getFallback, h]⟩

/-- Witness for C5: key `PORT`, default `3000`, empty live environment. -/
theorem get_default_fallback_witness :
    (([] : EnvMap).lookup "PORT" = none ∨ ([] : EnvMap).lookup "PORT" = some "") ∧
    (((Env.mk ["PORT"] [] [("PORT", "3000")] IgnoreErrors.bFalse).default_env.lookup "PORT" =
          some "3000" →
        Env.get (Env.mk ["PORT"] [] [("PORT", "3000")] IgnoreErrors.bFalse) []
          "PORT" true = GetResult.str "3000") ∧
      Env.get (Env.mk ["PORT"] [] [("PORT", "3000")] IgnoreErrors.bFalse) []
        "PORT" false = GetResult.boolFalse) :=
  ⟨Or.inl rfl,
    get_default_fallback (Env.mk ["PORT"] [] [("PORT", "3000")] IgnoreErrors.bFalse)
      [] "PORT" "3000" (Or.inl rfl)⟩

/-- Claim C6: for a key whose current live value is a non-empty
string, `get` returns exactly that string, for both values of the
`defaultIncludes` flag and for every instance (hence every error
policy and defaults record). -/
theorem get_returns_live_value (inst : Env) (liveEnv : EnvMap)
    (key v : String) (b : Bool)
    (hv : liveEnv.lookup key = some v) (hne : v ≠ "") :
    Env.get inst liveEnv key b = GetResult.str v := by
  simp [Env.get, hv, hne]

/-- Witness for C6: `CLIENT_URL` set to a non-empty string in the live
environment. -/
theorem get_returns_live_value_witness :
    ([("CLIENT_URL", "https://x.test")] : EnvMap).lookup "CLIENT_URL" =
      some "https://x.test" ∧
    ("https://x.test" : String) ≠ "" ∧
    Env.get (Env.mk [] [] [] IgnoreErrors.zero)
        [("CLIENT_URL", "https://x.test")] "CLIENT_URL" true =
      GetResult.str "https://x.test" :=
  ⟨rfl, by decide, get_returns_live_value _ _ _ _ _ rfl (by decide)⟩

/-- Claim C7: the `catch` handler of `get` dispatches a resolution
failure on the instance's three-way policy — `ignoreErrors === false`
rethrows it, `=== true` logs it once and returns the sentinel `false`,
`0` returns the sentinel with no log — and a failure-free call returns
the resolved value with no log; hence under the two lenient policies
`get` never throws and always returns a value. -/
theorem get_error_policy_dispatch (inst : Env) (liveEnv : EnvMap)
    (key : String) (b : Bool) (err : String) :
    Env.getRun inst liveEnv key b none =
      GetOutcome.mk (Except.ok (Env.get inst liveEnv key b)) [] ∧
    Env.getRun inst liveEnv key b (some err) =
      (match inst.ignoreErrors with
        | IgnoreErrors.bFalse => GetOutcome.mk (Except.error err) []
        | IgnoreErrors.bTrue => GetOutcome.mk (Except.ok GetResult.boolFalse) [err]
        | IgnoreErrors.zero => GetOutcome.mk (Except.ok GetResult.boolFalse) []) := by
  obtain ⟨ks, rq, de, pol⟩ := inst
  cases pol <;> exact ⟨rfl, rfl⟩

/-- Claim C8: a successfully constructed registry's key list is
exactly the JS-Set union of the live environment's keys at
construction time and the declared key list — membership is the
set-union of the two inputs — and no later `get` call (over any live
environment) changes the instance, so the key list is never
recomputed or mutated. -/
theorem knownKeys_union_and_immutable
    (liveEnv : EnvMap) (keys required : List String) (defaults : EnvMap)
    (pol : IgnoreErrors) (inst : Env) (ws : List String) (k : String)
    (liveEnv2 : EnvMap) (key2 : String) (b2 : Bool) (f2 : Option String)
    (h : Env.construct liveEnv keys required defaults pol = Except.ok (inst, ws)) :
    (k ∈ inst.keys ↔ k ∈ keysOf liveEnv ∨ k ∈ keys) ∧
    inst.keys = jsSetUnion (keysOf liveEnv ++ keys) ∧
    (Env.getStep inst liveEnv2 key2 b2 f2).2.1 = inst := by
  have hkeys : inst.keys = jsSetUnion (keysOf liveEnv ++ keys) := by
    simp only [Env.construct] at h
    split at h
    · exact absurd h (by simp)
    · injection h with h1
      injection h1 with ha hb
      rw [← ha]
  refine ⟨?_, hkeys, rfl⟩
  rw [hkeys, mem_jsSetUnion, List.mem_append]

/-- Witness for C8: live environment with `CLIENT_URL`, declared key
`PORT`; the constructed key list is the union, and a lookup leaves the
instance unchanged. -/
theorem knownKeys_union_and_immutable_witness :
    Env.construct [("CLIENT_URL", "u")] ["PORT"] [] [] IgnoreErrors.bFalse =
      Except.ok (Env.mk ["CLIENT_URL", "PORT"] [] [] IgnoreErrors.bFalse, []) ∧
    (("PORT" ∈ (Env.mk ["CLIENT_URL", "PORT"] [] [] IgnoreErrors.bFalse).keys ↔
        "PORT" ∈ keysOf [("CLIENT_URL", "u")] ∨ "PORT" ∈ ["PORT"]) ∧
      (Env.mk ["CLIENT_URL", "PORT"] [] [] IgnoreErrors.bFalse).keys =
        jsSetUnion (keysOf [("CLIENT_URL", "u")] ++ ["PORT"]) ∧
      (Env.getStep (Env.mk ["CLIENT_URL", "PORT"] [] [] IgnoreErrors.bFalse)
          [] "PORT" false none).2.1 =
        Env.mk ["CLIENT_URL", "PORT"] [] [] IgnoreErrors.bFalse) :=
  ⟨rfl,
    knownKeys_union_and_immutable [("CLIENT_URL", "u")] ["PORT"] [] []
      IgnoreErrors.bFalse (Env.mk ["CLIENT_URL", "PORT"] [] [] IgnoreErrors.bFalse)
      [] "PORT" [] "PORT" false none rfl⟩

/-- Claim C9: constructing the deprecated `EnvUtility` wrapper and
reading its `env` field yields exactly the result of calling
`CreateEnv` with the same arguments — the same thrown error, or the
same registry (same key list, same defaults, hence same `get`
behavior) and the same construction-time warnings; the wrapper adds no
logic. -/
theorem envUtility_equals_createEnv (loadFile : String → EnvMap → EnvMap)
    (pathToEnv : String) (liveEnv : EnvMap) (keys requiredKeys : List String)
    (defaultEnv : EnvMap) (ignoreErrors : IgnoreErrors) :
    EnvUtility.make loadFile pathToEnv liveEnv keys requiredKeys defaultEnv
        ignoreErrors =
      CreateEnv loadFile pathToEnv liveEnv keys requiredKeys defaultEnv
        ignoreErrors :=
  rfl

/-- Claim C10: a `get` call mutates neither the registry instance nor
the live environment, and a second call with the same key, flag and
failure condition, run in the state the first call leaves behind,
returns the identical outcome. -/
theorem get_idempotent_and_effect_free (inst : Env) (liveEnv : EnvMap)
    (key : String) (b : Bool) (f : Option String) :
    (Env.getStep inst liveEnv key b f).2.1 = inst ∧
    (Env.getStep inst liveEnv key b f).2.2 = liveEnv ∧
    (Env.getStep (Env.getStep inst liveEnv key b f).2.1
        (Env.getStep inst liveEnv key b f).2.2 key b f).1 =
      (Env.getStep inst liveEnv key b f).1 :=
  ⟨rfl, rfl, rfl⟩
